import Mathlib

/-!
A shallow embedding of the NVRAM space-management core
(`core/nvram_manager.cpp` of the access-controlled NVRAM HAL backend),
together with proofs about its request handlers and its recovery pass.

The embedding mirrors `NvramManager` member by member.  Storage-layer call
results are modelled explicitly: the persistence gateway is external to the
core, so it appears here as a small state machine over typed slots (matching
the behaviour exercised by the repository's `fake_storage.cpp` test double,
with error injection per slot), and the recovery pass is additionally stated
against fully abstract call-result oracles.  Fallible in-process allocations
(`Vector::Resize`, `Blob::Assign`), which the C++ code surfaces as `bool`
returns, are modelled as boolean oracle inputs collected in `AllocEnv`.
-/

namespace Nvram

/-- Result codes of the HAL surface (`hardware/nvram_defs.h`); the seven codes
the core can produce. -/
inductive NvResult where
  | success
  | internalError
  | invalidParameter
  | spaceAlreadyExists
  | spaceDoesNotExist
  | operationDisabled
  | authorizationFailed
deriving DecidableEq, Repr

/-- Storage status alphabet of the persistence gateway
(`nvram::storage::Status`). -/
inductive Status where
  | kSuccess
  | kNotFound
  | kStorageError
deriving DecidableEq, Repr

/-- Result of a load call: the blob, not found, or a storage error. -/
inductive LoadR (α : Type) where
  | ok (value : α)
  | notFound
  | error
deriving DecidableEq, Repr

/-! ## Control bit positions (`nvram_defs.h`, spec section 3) -/

def NV_CONTROL_PERSISTENT_WRITE_LOCK : Nat := 0
def NV_CONTROL_BOOT_WRITE_LOCK : Nat := 1
def NV_CONTROL_BOOT_READ_LOCK : Nat := 2
def NV_CONTROL_WRITE_AUTHORIZATION : Nat := 3
def NV_CONTROL_READ_AUTHORIZATION : Nat := 4
def NV_CONTROL_WRITE_EXTEND : Nat := 5

/-- The bitmask of all supported control flags (`nvram_manager.cpp` lines
38-44). -/
def kSupportedControlsMask : Nat :=
  (1 <<< NV_CONTROL_PERSISTENT_WRITE_LOCK) |||
  (1 <<< NV_CONTROL_BOOT_WRITE_LOCK) |||
  (1 <<< NV_CONTROL_BOOT_READ_LOCK) |||
  (1 <<< NV_CONTROL_WRITE_AUTHORIZATION) |||
  (1 <<< NV_CONTROL_READ_AUTHORIZATION) |||
  (1 <<< NV_CONTROL_WRITE_EXTEND)

/-- The complement of `kSupportedControlsMask` within 32 bits
(`~kSupportedControlsMask` over `uint32_t`). -/
def kUnsupportedControlsMask : Nat := (2 ^ 32 - 1) ^^^ kSupportedControlsMask

/-- Maximum size of a single space's contents (`nvram_manager.cpp` line 32). -/
def kMaxSpaceSize : Nat := 1024

/-- Maximum authorization blob size (`nvram_manager.cpp` line 35). -/
def kMaxAuthSize : Nat := 32

/-- Maximum number of NVRAM spaces (`nvram_manager.h` line 100). -/
def kMaxSpaces : Nat := 32

/-! ## Persistent records

Modelled from the spec: `NvramHeader` and `NvramSpace` live in
`nvram/core/persistence.h`, which is not among the provided sources; their
fields and flag/control accessors follow spec section 3 and the uses in
`nvram_manager.cpp` and the tests (u32 fields become `Nat`, byte blobs become
`List Nat`). -/

structure NvramHeader where
  version : Nat := 0
  flags : Nat := 0
  allocated_indices : List Nat := []
  provisional_index : Option Nat := none
deriving DecidableEq, Repr

/-- Modelled from the spec: the current storage format version
(`KNOWN_VERSION = 1`, spec section 6). -/
def NvramHeader.kVersion : Nat := 1

/-- Modelled from the spec: the header's `DISABLE_CREATE` flag bit. -/
def NvramHeader.kFlagDisableCreate : Nat := 1

/-- Flag test on the header's `flags` bitset. -/
def NvramHeader.HasFlag (h : NvramHeader) (flag : Nat) : Bool :=
  (h.flags &&& flag) != 0

structure NvramSpace where
  flags : Nat := 0
  controls : Nat := 0
  authorization_value : List Nat := []
  contents : List Nat := []
deriving DecidableEq, Repr

/-- Modelled from the spec: the space's persistent `WRITE_LOCKED` flag bit. -/
def NvramSpace.kFlagWriteLocked : Nat := 1

/-- Control query on the `controls` bitmask
(`(controls & (1 << control)) != 0`). -/
def NvramSpace.HasControl (sp : NvramSpace) (control : Nat) : Bool :=
  (sp.controls &&& (1 <<< control)) != 0

/-- Flag test on the space's `flags` bitset. -/
def NvramSpace.HasFlag (sp : NvramSpace) (flag : Nat) : Bool :=
  (sp.flags &&& flag) != 0

/-! ## The persistence gateway

Modelled from the spec: the storage layer itself is external to the core
(spec section 2, `PersistenceGateway`); its state machine follows the
repository's `fake_storage.cpp` test double — one header slot and keyed space
slots, each holding an optional decoded blob plus an injectable error flag.
A load returns `Err` when the slot's error flag is set, `NotFound` when the
slot is empty; a store fails only on the error flag; a delete clears the slot
and succeeds even when the slot is already empty (as in `fake_storage.cpp`),
and reports `Err` on the error flag (the spec's delete alphabet includes
`Err`). -/

structure StorageSlot (α : Type) where
  blob : Option α := none
  error : Bool := false
deriving DecidableEq, Repr

def StorageSlot.load {α : Type} (slot : StorageSlot α) : LoadR α :=
  if slot.error then .error
  else
    match slot.blob with
    | none => .notFound
    | some a => .ok a

/-- Replace-or-insert in an association list of slots. -/
def setAssoc {α : Type} : List (Nat × α) → Nat → α → List (Nat × α)
  | [], i, a => [(i, a)]
  | (j, b) :: rest, i, a =>
      if j = i then (i, a) :: rest else (j, b) :: setAssoc rest i a

structure Storage where
  header : StorageSlot NvramHeader := {}
  spaces : List (Nat × StorageSlot NvramSpace) := []
deriving DecidableEq, Repr

def Storage.spaceSlot (s : Storage) (index : Nat) : StorageSlot NvramSpace :=
  match s.spaces.lookup index with
  | some slot => slot
  | none => {}

def Storage.LoadHeader (s : Storage) : LoadR NvramHeader :=
  s.header.load

def Storage.StoreHeader (s : Storage) (h : NvramHeader) : Status × Storage :=
  if s.header.error then (.kStorageError, s)
  else (.kSuccess, { s with header := { s.header with blob := some h } })

def Storage.LoadSpace (s : Storage) (index : Nat) : LoadR NvramSpace :=
  (s.spaceSlot index).load

def Storage.StoreSpace (s : Storage) (index : Nat) (sp : NvramSpace) :
    Status × Storage :=
  let slot := s.spaceSlot index
  if slot.error then (.kStorageError, s)
  else (.kSuccess, { s with spaces := setAssoc s.spaces index { slot with blob := some sp } })

def Storage.DeleteSpace (s : Storage) (index : Nat) : Status × Storage :=
  let slot := s.spaceSlot index
  if slot.error then (.kStorageError, s)
  else (.kSuccess, { s with spaces := setAssoc s.spaces index { slot with blob := none } })

/-! ## In-memory manager state (`nvram_manager.h`) -/

/-- Transient per-space bookkeeping entry (`nvram_manager.h` lines 48-52). -/
structure SpaceListEntry where
  index : Nat
  write_locked : Bool := false
  read_locked : Bool := false
deriving DecidableEq, Repr

/-- The manager's member state (`nvram_manager.h` lines 102-107).  The C++
fixed array `spaces_[kMaxSpaces]` together with its count `num_spaces_` is
represented by the list of its first `num_spaces_` entries; `num_spaces_` is
the list length. -/
structure NvramManager where
  initialized_ : Bool := false
  disable_create_ : Bool := false
  spaces_ : List SpaceListEntry := []
deriving DecidableEq, Repr

def NvramManager.num_spaces_ (m : NvramManager) : Nat := m.spaces_.length

/-- A freshly constructed manager. -/
def freshManager : NvramManager := {}

/-- Allocation-result oracle: the C++ core surfaces each fallible in-process
allocation (`Vector::Resize` / `Blob::Assign`) as a `bool`; each call site in
the embedded handlers consumes the corresponding field. -/
structure AllocEnv where
  /-- `header.allocated_indices.Resize` inside `WriteHeader` (line 396). -/
  headerIndicesOk : Bool := true
  /-- `space.authorization_value.Assign` inside `CreateSpace` (line 148). -/
  authAssignOk : Bool := true
  /-- `space.contents.Resize` inside `CreateSpace` (line 156). -/
  contentsResizeOk : Bool := true
  /-- `space_list.Resize` inside `GetInfo` (line 76). -/
  listOk : Bool := true
  /-- `controls->Resize` inside `GetControlsVector` (line 51). -/
  controlsOk : Bool := true
deriving DecidableEq, Repr

/-- `NvramManager::FindSpace` (lines 348-356): linear scan returning the array
position of `space_index`, or `kMaxSpaces` if absent. -/
def findSpaceAux (entries : List SpaceListEntry) (space_index : Nat) (i : Nat) : Nat :=
  match entries with
  | [] => kMaxSpaces
  | e :: rest => if e.index = space_index then i else findSpaceAux rest space_index (i + 1)

def NvramManager.FindSpace (m : NvramManager) (space_index : Nat) : Nat :=
  findSpaceAux m.spaces_ space_index 0

/-- `NvramManager::WriteHeader` (lines 389-412): build a fresh header from the
member state and store it.  `allocOk` is the result of the
`allocated_indices.Resize` call. -/
def NvramManager.buildHeader (m : NvramManager) (provisional : Option Nat) : NvramHeader :=
  { version := NvramHeader.kVersion,
    flags := if m.disable_create_ then NvramHeader.kFlagDisableCreate else 0,
    allocated_indices := m.spaces_.map (·.index),
    provisional_index := provisional }

def NvramManager.WriteHeader (m : NvramManager) (s : Storage) (allocOk : Bool)
    (provisional : Option Nat) : NvResult × Storage :=
  if allocOk = false then (.internalError, s)
  else
    match s.StoreHeader (m.buildHeader provisional) with
    | (.kSuccess, s1) => (.success, s1)
    | (_, s1) => (.internalError, s1)

/-- `NvramManager::WriteSpace` (lines 414-422). -/
def WriteSpace (s : Storage) (index : Nat) (space : NvramSpace) : NvResult × Storage :=
  match s.StoreSpace index space with
  | (.kSuccess, s1) => (.success, s1)
  | (_, s1) => (.internalError, s1)

/-! ## The recovery pass (`NvramManager::Initialize`, lines 227-346) -/

/-- The `provisional_space_in_storage` computation (lines 251-275): load the
provisional space; a storage error conservatively counts as present. -/
def provisionalInStorage (provisional : Option Nat)
    (loadSpaceR : Nat → LoadR NvramSpace) : Bool :=
  match provisional with
  | none => false
  | some p =>
    match loadSpaceR p with
    | .error => true
    | .notFound => false
    | .ok _ => true

/-- The transient bookkeeping loop (lines 296-314): append an entry per
allocated index, skipping the provisional index when its space blob is not in
storage.  The appends land after whatever entries the member array already
holds. -/
def appendEntries (base : List SpaceListEntry) (allocated : List Nat)
    (provisional : Option Nat) (inStorage : Bool) : List SpaceListEntry :=
  base ++ allocated.filterMap (fun index =>
    if provisional = some index ∧ inStorage = false then none
    else some { index := index })

/-- The `delete_provisional_space` flag as it stands after the loop (lines
296-308): initially `provisional_index.valid()`, cleared exactly when the
provisional index is an allocated index whose blob is in storage. -/
def deleteProvisionalFlag (allocated : List Nat) (provisional : Option Nat)
    (inStorage : Bool) : Bool :=
  match provisional with
  | none => false
  | some p => !(decide (p ∈ allocated) && inStorage)

/-- Outcome of one pass of `Initialize`: the return value, the updated member
state, which space index `persistence::DeleteSpace` was invoked on (if any),
and whether the final opportunistic header write (lines 341-343) is reached. -/
structure InitOut where
  ok : Bool
  m : NvramManager
  deleteIndex : Option Nat := none
  clearHeader : Bool := false
deriving DecidableEq, Repr

/-- `NvramManager::Initialize` (lines 227-346) with the results of the three
storage-layer calls it makes supplied as oracle arguments, so every point of
the call-result alphabet is expressible.  Member-state mutations follow the
C++ exactly; in particular a failure at the provisional-delete step returns
`false` with the freshly appended entries left in `spaces_` and
`initialized_` still unset. -/
def NvramManager.initCore (m : NvramManager) (loadHeaderR : LoadR NvramHeader)
    (loadSpaceR : Nat → LoadR NvramSpace) (deleteSpaceR : Nat → Status) : InitOut :=
  if m.initialized_ then { ok := true, m := m }
  else
    match loadHeaderR with
    | .error => { ok := false, m := m }
    | .notFound => { ok := true, m := { m with initialized_ := true } }
    | .ok header =>
      if NvramHeader.kVersion < header.version then { ok := false, m := m }
      else
        let inStorage := provisionalInStorage header.provisional_index loadSpaceR
        if kMaxSpaces < header.allocated_indices.length then { ok := false, m := m }
        else
          let m1 : NvramManager :=
            { m with spaces_ := (appendEntries m.spaces_ header.allocated_indices
                header.provisional_index inStorage) }
          let finish : NvramManager :=
            { m1 with
                disable_create_ := header.HasFlag NvramHeader.kFlagDisableCreate,
                initialized_ := true }
          match header.provisional_index with
          | none => { ok := true, m := finish }
          | some p =>
            if deleteProvisionalFlag header.allocated_indices (some p) inStorage then
              match deleteSpaceR p with
              | .kStorageError => { ok := false, m := m1, deleteIndex := some p }
              | .kNotFound => { ok := false, m := m1, deleteIndex := some p }
              | .kSuccess =>
                  { ok := true, m := finish, deleteIndex := some p, clearHeader := true }
            else { ok := true, m := finish, clearHeader := true }

/-- `Initialize` against the concrete storage state: instantiate the oracles
with the storage's deterministic call results and apply the side effects (the
provisional-space delete, then the opportunistic header write whose failure is
ignored). -/
def NvramManager.initFull (m : NvramManager) (s : Storage) (env : AllocEnv) :
    Bool × NvramManager × Storage :=
  let out := m.initCore s.LoadHeader s.LoadSpace (fun i => (s.DeleteSpace i).1)
  let s1 := match out.deleteIndex with
            | some p => (s.DeleteSpace p).2
            | none => s
  let s2 := if out.clearHeader then (out.m.WriteHeader s1 env.headerIndicesOk none).2 else s1
  (out.ok, out.m, s2)

/-! ## Request handlers -/

structure GetInfoResponse where
  total_size : Nat := 0
  available_size : Nat := 0
  max_spaces : Nat := 0
  space_list : List Nat := []
deriving DecidableEq, Repr

/-- `NvramManager::GetInfo` (lines 63-85). -/
def NvramManager.GetInfo (m : NvramManager) (s : Storage) (env : AllocEnv) :
    NvResult × GetInfoResponse × NvramManager × Storage :=
  match m.initFull s env with
  | (ok, m0, s0) =>
    if ok = false then (.internalError, {}, m0, s0)
    else
      let base : GetInfoResponse :=
        { total_size := kMaxSpaceSize * kMaxSpaces,
          available_size := kMaxSpaceSize * (kMaxSpaces - m0.num_spaces_),
          max_spaces := kMaxSpaces,
          space_list := [] }
      if env.listOk = false then (.internalError, base, m0, s0)
      else (.success, { base with space_list := m0.spaces_.map (·.index) }, m0, s0)

/-- `GetControlsVector` (lines 47-59): walk bit positions `0..31` of the
space's controls mask, appending each set position; the single `allocOk`
oracle stands for the `Resize` calls, so on failure the vector is still empty
(the C++ fails at the first set bit). -/
def GetControlsVector (space : NvramSpace) (allocOk : Bool) : NvResult × List Nat :=
  let set := (List.range 32).filter (fun control => space.HasControl control)
  if allocOk = false ∧ set ≠ [] then (.internalError, [])
  else (.success, set)

/-- All information known about a space (`nvram_manager.h` lines 60-76); the
transient entry is held by copy here since the embedded handlers only read
it. -/
structure SpaceRecord where
  array_index : Nat := 0
  transient : SpaceListEntry := { index := 0 }
  persistent : NvramSpace := {}
deriving DecidableEq, Repr

/-- `NvramManager::LoadSpaceRecord` (lines 358-387). -/
def NvramManager.LoadSpaceRecord (m : NvramManager) (s : Storage) (index : Nat) :
    Except NvResult SpaceRecord :=
  let array_index := m.FindSpace index
  if array_index = kMaxSpaces then .error .spaceDoesNotExist
  else
    match s.LoadSpace index with
    | .error => .error .internalError
    | .notFound => .error .internalError
    | .ok space =>
        .ok { array_index := array_index,
              transient := m.spaces_.getD array_index { index := 0 },
              persistent := space }

structure GetSpaceInfoResponse where
  size : Nat := 0
  controls : List Nat := []
  read_locked : Bool := false
  write_locked : Bool := false
deriving DecidableEq, Repr

/-- `NvramManager::GetSpaceInfo` (lines 178-211). -/
def NvramManager.GetSpaceInfo (m : NvramManager) (s : Storage) (env : AllocEnv)
    (index : Nat) : NvResult × GetSpaceInfoResponse × NvramManager × Storage :=
  match m.initFull s env with
  | (ok, m0, s0) =>
    if ok = false then (.internalError, {}, m0, s0)
    else
      match m0.LoadSpaceRecord s0 index with
      | .error r => (r, {}, m0, s0)
      | .ok record =>
        let resp0 : GetSpaceInfoResponse := { size := record.persistent.contents.length }
        match GetControlsVector record.persistent env.controlsOk with
        | (.success, cs) =>
          let resp1 := { resp0 with controls := cs }
          let resp2 :=
            if record.persistent.HasControl NV_CONTROL_BOOT_READ_LOCK then
              { resp1 with read_locked := record.transient.read_locked }
            else resp1
          let resp3 :=
            if record.persistent.HasControl NV_CONTROL_PERSISTENT_WRITE_LOCK then
              { resp2 with write_locked := record.persistent.HasFlag NvramSpace.kFlagWriteLocked }
            else if record.persistent.HasControl NV_CONTROL_BOOT_WRITE_LOCK then
              { resp2 with write_locked := record.transient.write_locked }
            else resp2
          (.success, resp3, m0, s0)
        | (_, _) => (.internalError, resp0, m0, s0)

structure CreateSpaceRequest where
  index : Nat := 0
  size : Nat := 0
  controls : List Nat := []
  authorization_value : List Nat := []
deriving DecidableEq, Repr

/-- The controls bitmask accumulated from the request's control list
(lines 120-123). -/
def controlsMaskOf (controls : List Nat) : Nat :=
  controls.foldl (fun acc control => acc ||| (1 <<< control)) 0

/-- `NvramManager::CreateSpace` (lines 87-176).  The seven precondition
checks appear in source order; the tentative append, the space construction
with its two fallible allocations, and the two-phase write with its rollback
follow the C++ exactly (in particular the two allocation-failure returns at
lines 151 and 158 do not pop the tentative entry). -/
def NvramManager.CreateSpace (m : NvramManager) (s : Storage) (env : AllocEnv)
    (request : CreateSpaceRequest) : NvResult × NvramManager × Storage :=
  match m.initFull s env with
  | (ok, m0, s0) =>
    if ok = false then (.internalError, m0, s0)
    else if m0.disable_create_ then (.operationDisabled, m0, s0)
    else if m0.FindSpace request.index ≠ kMaxSpaces then (.spaceAlreadyExists, m0, s0)
    else if kMaxSpaces < m0.num_spaces_ + 1 then (.invalidParameter, m0, s0)
    else if kMaxSpaceSize < request.size then (.invalidParameter, m0, s0)
    else if kMaxAuthSize < request.authorization_value.length then (.invalidParameter, m0, s0)
    else
      let controls := controlsMaskOf request.controls
      if controls &&& kUnsupportedControlsMask ≠ 0 then
        (.invalidParameter, m0, s0)
      else if (controls &&& (1 <<< NV_CONTROL_PERSISTENT_WRITE_LOCK)) ≠ 0 ∧
              (controls &&& (1 <<< NV_CONTROL_BOOT_WRITE_LOCK)) ≠ 0 then
        (.invalidParameter, m0, s0)
      else
        let m1 := { m0 with spaces_ := m0.spaces_ ++ [{ index := request.index }] }
        let space0 : NvramSpace := { flags := 0, controls := controls }
        let needAuth := space0.HasControl NV_CONTROL_WRITE_AUTHORIZATION ||
                        space0.HasControl NV_CONTROL_READ_AUTHORIZATION
        if needAuth ∧ env.authAssignOk = false then (.internalError, m1, s0)
        else
          let space1 :=
            if needAuth then { space0 with authorization_value := request.authorization_value }
            else space0
          if env.contentsResizeOk = false then (.internalError, m1, s0)
          else
            let space2 := { space1 with contents := List.replicate request.size 0 }
            match m1.WriteHeader s0 env.headerIndicesOk (some request.index) with
            | (.success, s1) =>
              match WriteSpace s1 request.index space2 with
              | (.success, s2) => (.success, m1, s2)
              | (r, s2) => (r, { m1 with spaces_ := m1.spaces_.dropLast }, s2)
            | (r, s1) => (r, { m1 with spaces_ := m1.spaces_.dropLast }, s1)

/-- `NvramManager::DisableCreate` (lines 213-225). -/
def NvramManager.DisableCreate (m : NvramManager) (s : Storage) (env : AllocEnv) :
    NvResult × NvramManager × Storage :=
  match m.initFull s env with
  | (ok, m0, s0) =>
    if ok = false then (.internalError, m0, s0)
    else
      let m2 := { m0 with disable_create_ := true }
      match m2.WriteHeader s0 env.headerIndicesOk none with
      | (r, s1) => (r, m2, s1)

/-! ## Request-level step machine (for temporal claims) -/

/-- One decoded request of the command set embedded here. -/
inductive Op where
  | getInfo
  | createSpace (request : CreateSpaceRequest)
  | getSpaceInfo (index : Nat)
  | disableCreate
deriving DecidableEq, Repr

/-- Apply one request handler to the manager-and-storage pair, discarding the
wire response. -/
def applyOp (m : NvramManager) (s : Storage) (env : AllocEnv) : Op → NvramManager × Storage
  | .getInfo => ((m.GetInfo s env).2.2.1, (m.GetInfo s env).2.2.2)
  | .createSpace q => ((m.CreateSpace s env q).2.1, (m.CreateSpace s env q).2.2)
  | .getSpaceInfo i => ((m.GetSpaceInfo s env i).2.2.1, (m.GetSpaceInfo s env i).2.2.2)
  | .disableCreate => ((m.DisableCreate s env).2.1, (m.DisableCreate s env).2.2)

/-- Run a sequence of requests, each with its own allocation environment. -/
def runOps : List (Op × AllocEnv) → NvramManager × Storage → NvramManager × Storage
  | [], ms => ms
  | (op, env) :: rest, ms => runOps rest (applyOp ms.1 ms.2 env op)

end Nvram

namespace Nvram

/-! ## Basic lemmas about the recovery pass -/

theorem initCore_of_initialized (m : NvramManager) (lhr : LoadR NvramHeader)
    (lsr : Nat → LoadR NvramSpace) (dr : Nat → Status) (h : m.initialized_ = true) :
    m.initCore lhr lsr dr = { ok := true, m := m } := by
  simp [NvramManager.initCore, h]

theorem initFull_of_initialized (m : NvramManager) (s : Storage) (env : AllocEnv)
    (h : m.initialized_ = true) :
    m.initFull s env = (true, m, s) := by
  simp [NvramManager.initFull, initCore_of_initialized, h]

theorem initFull_fst (m : NvramManager) (s : Storage) (env : AllocEnv) :
    (m.initFull s env).1
      = (m.initCore s.LoadHeader s.LoadSpace (fun i => (s.DeleteSpace i).1)).ok := rfl

theorem initFull_snd_fst (m : NvramManager) (s : Storage) (env : AllocEnv) :
    (m.initFull s env).2.1
      = (m.initCore s.LoadHeader s.LoadSpace (fun i => (s.DeleteSpace i).1)).m := rfl

theorem initCore_ok_initialized (m : NvramManager) (lhr : LoadR NvramHeader)
    (lsr : Nat → LoadR NvramSpace) (dr : Nat → Status) :
    (m.initCore lhr lsr dr).ok = true → (m.initCore lhr lsr dr).m.initialized_ = true := by
  unfold NvramManager.initCore
  try dsimp only
  repeat' split
  all_goals simp_all

/-- On a run that starts uninitialized, loads a header and succeeds, the
resulting member state is exactly: initialized, the disable flag latched from
the header, and the bookkeeping entries appended behind the pre-existing
ones. -/
theorem initCore_ok_shape (m : NvramManager) (header : NvramHeader)
    (lsr : Nat → LoadR NvramSpace) (dr : Nat → Status) (hm : m.initialized_ = false)
    (hok : (m.initCore (.ok header) lsr dr).ok = true) :
    (m.initCore (.ok header) lsr dr).m =
      { initialized_ := true,
        disable_create_ := header.HasFlag NvramHeader.kFlagDisableCreate,
        spaces_ := (appendEntries m.spaces_ header.allocated_indices header.provisional_index
          (provisionalInStorage header.provisional_index lsr)) } := by
  unfold NvramManager.initCore at *
  try dsimp only at *
  rw [hm] at hok ⊢
  try dsimp only [Bool.false_eq_true, if_false] at hok ⊢
  repeat' split at hok
  all_goals (repeat' split)
  all_goals first
    | rfl
    | omega
    | simp_all

/-- A failing run never sets `initialized_`, leaving retry armed. -/
theorem initCore_fail_not_initialized (m : NvramManager) (lhr : LoadR NvramHeader)
    (lsr : Nat → LoadR NvramSpace) (dr : Nat → Status) (hm : m.initialized_ = false) :
    (m.initCore lhr lsr dr).ok = false → (m.initCore lhr lsr dr).m.initialized_ = false := by
  unfold NvramManager.initCore
  try dsimp only
  repeat' split
  all_goals simp_all

/-! ## `FindSpace` lemmas -/

theorem findSpaceAux_of_not_mem (entries : List SpaceListEntry) (idx : Nat)
    (h : idx ∉ entries.map (·.index)) : ∀ k, findSpaceAux entries idx k = kMaxSpaces := by
  induction entries with
  | nil => intro k; rfl
  | cons e rest ih =>
      intro k
      simp only [List.map_cons, List.mem_cons] at h
      push_neg at h
      have hne : ¬(e.index = idx) := fun he => h.1 he.symm
      simp only [findSpaceAux, if_neg hne]
      exact ih h.2 (k + 1)

theorem findSpaceAux_lt (entries : List SpaceListEntry) (idx : Nat)
    (h : idx ∈ entries.map (·.index)) :
    ∀ k, findSpaceAux entries idx k < k + entries.length := by
  induction entries with
  | nil => simp at h
  | cons e rest ih =>
      intro k
      by_cases he : e.index = idx
      · simp [findSpaceAux, he]
      · simp only [List.map_cons, List.mem_cons] at h
        have hr : idx ∈ rest.map (·.index) := by
          rcases h with h | h
          · exact absurd h.symm he
          · exact h
        have := ih hr (k + 1)
        simp only [findSpaceAux, if_neg he, List.length_cons]
        omega

theorem findSpace_ne_iff (m : NvramManager) (idx : Nat)
    (h : m.spaces_.length ≤ kMaxSpaces) :
    m.FindSpace idx ≠ kMaxSpaces ↔ idx ∈ m.spaces_.map (·.index) := by
  constructor
  · intro hne
    by_contra hmem
    exact hne (findSpaceAux_of_not_mem m.spaces_ idx hmem 0)
  · intro hmem
    have := findSpaceAux_lt m.spaces_ idx hmem 0
    have h32 : kMaxSpaces = 32 := rfl
    unfold NvramManager.FindSpace
    omega

/-! ## Bitmask lemmas for the `CreateSpace` control checks -/

theorem testBit_controlsFold (l : List Nat) (a b : Nat) :
    ((l.foldl (fun acc control => acc ||| (1 <<< control)) a).testBit b = true)
      ↔ (a.testBit b = true ∨ b ∈ l) := by
  induction l generalizing a with
  | nil => simp
  | cons c rest ih =>
      rw [List.foldl_cons, ih]
      simp only [Nat.testBit_or, Nat.one_shiftLeft, Nat.testBit_two_pow, Bool.or_eq_true,
        decide_eq_true_eq, List.mem_cons]
      constructor
      · rintro ((h | h) | h)
        · exact Or.inl h
        · exact Or.inr (Or.inl h.symm)
        · exact Or.inr (Or.inr h)
      · rintro (h | h | h)
        · exact Or.inl (Or.inl h)
        · exact Or.inl (Or.inr h.symm)
        · exact Or.inr h

theorem testBit_controlsMaskOf (l : List Nat) (b : Nat) :
    ((controlsMaskOf l).testBit b = true) ↔ b ∈ l := by
  unfold controlsMaskOf
  rw [testBit_controlsFold]
  simp

theorem and_ne_zero_iff (x y : Nat) :
    x &&& y ≠ 0 ↔ ∃ b, x.testBit b = true ∧ y.testBit b = true := by
  constructor
  · intro h
    obtain ⟨i, hi⟩ := Nat.ne_zero_implies_bit_true h
    rw [Nat.testBit_and, Bool.and_eq_true] at hi
    exact ⟨i, hi⟩
  · rintro ⟨b, hx, hy⟩ h0
    have := Nat.testBit_and x y b
    rw [h0, Nat.zero_testBit, hx, hy] at this
    simp at this

/-- The inverted supported-controls mask has exactly bits 6 through 31 set. -/
theorem testBit_unsupportedMask (b : Nat) :
    (kUnsupportedControlsMask.testBit b = true) ↔ (6 ≤ b ∧ b < 32) := by
  have hC : kUnsupportedControlsMask = (2 ^ 26 - 1) <<< 6 := by decide
  rw [hC, Nat.testBit_shiftLeft, Nat.testBit_two_pow_sub_one]
  simp only [Bool.and_eq_true, decide_eq_true_eq, ge_iff_le]
  omega

/-- The allowed control values of spec section 3. -/
def supportedControlValues : List Nat := [0, 1, 2, 3, 4, 5]

theorem unsupported_check_iff (l : List Nat) (hc : ∀ c ∈ l, c < 32) :
    controlsMaskOf l &&& kUnsupportedControlsMask ≠ 0 ↔
      ∃ c ∈ l, c ∉ supportedControlValues := by
  rw [and_ne_zero_iff]
  constructor
  · rintro ⟨b, hx, hy⟩
    rw [testBit_controlsMaskOf] at hx
    rw [testBit_unsupportedMask] at hy
    refine ⟨b, hx, ?_⟩
    simp [supportedControlValues]
    omega
  · rintro ⟨c, hcl, hcs⟩
    refine ⟨c, (testBit_controlsMaskOf l c).2 hcl, ?_⟩
    rw [testBit_unsupportedMask]
    have := hc c hcl
    simp [supportedControlValues] at hcs
    push_neg at hcs
    omega

theorem bit_check_iff (l : List Nat) (c : Nat) :
    controlsMaskOf l &&& (1 <<< c) ≠ 0 ↔ c ∈ l := by
  rw [and_ne_zero_iff]
  constructor
  · rintro ⟨b, hx, hy⟩
    rw [Nat.one_shiftLeft, Nat.testBit_two_pow, decide_eq_true_eq] at hy
    subst hy
    exact (testBit_controlsMaskOf l c).1 hx
  · intro hcl
    refine ⟨c, (testBit_controlsMaskOf l c).2 hcl, ?_⟩
    simp [Nat.one_shiftLeft, Nat.testBit_two_pow]

/-! ## The ordered `CreateSpace` precondition list (spec section 4.4.2) -/

/-- The spec's seven `CreateSpace` preconditions in order, each with its error
code: the value is the error of the earliest failing check, or `none` when all
pass.  This definition follows the spec's wording (set membership over the
request's control values); the code-level checks are compared against it. -/
def specFirstCreateError (m : NvramManager) (request : CreateSpaceRequest) : Option NvResult :=
  if m.disable_create_ = true then some .operationDisabled
  else if request.index ∈ m.spaces_.map (·.index) then some .spaceAlreadyExists
  else if kMaxSpaces < m.num_spaces_ + 1 then some .invalidParameter
  else if kMaxSpaceSize < request.size then some .invalidParameter
  else if kMaxAuthSize < request.authorization_value.length then some .invalidParameter
  else if ∃ c ∈ request.controls, c ∉ supportedControlValues then some .invalidParameter
  else if NV_CONTROL_PERSISTENT_WRITE_LOCK ∈ request.controls ∧
          NV_CONTROL_BOOT_WRITE_LOCK ∈ request.controls then some .invalidParameter
  else none

/-- C4: after successful initialization, the `CreateSpace` precondition checks
run in the spec's order with the spec's per-check error codes, and the first
failing check determines the result (a request violating several checks gets
the earliest one's error); a failed check leaves manager and storage
untouched.  Control values are assumed below 32 (the C++ `1 << control`
shifts are only well-defined there) and the table within its `kMaxSpaces`
capacity (which successful initialization guarantees). -/
theorem c4_create_checks_ordered (m : NvramManager) (s : Storage) (env : AllocEnv)
    (request : CreateSpaceRequest) (m0 : NvramManager) (s0 : Storage) (e : NvResult)
    (hIF : m.initFull s env = (true, m0, s0))
    (hc : ∀ c ∈ request.controls, c < 32)
    (hn : m0.num_spaces_ ≤ kMaxSpaces)
    (he : specFirstCreateError m0 request = some e) :
    m.CreateSpace s env request = (e, m0, s0) := by
  unfold NvramManager.CreateSpace
  rw [hIF]
  unfold specFirstCreateError at he
  split_ifs at he with h1 h2 h3 h4 h5 h6 h7
  · injection he with he; subst he
    simp [h1]
  · injection he with he; subst he
    have hf : m0.FindSpace request.index ≠ kMaxSpaces := (findSpace_ne_iff _ _ hn).2 h2
    simp [h1, hf]
  · injection he with he; subst he
    have hf : ¬(m0.FindSpace request.index ≠ kMaxSpaces) :=
      fun hne => h2 ((findSpace_ne_iff _ _ hn).1 hne)
    simp [h1, hf, h3]
  · injection he with he; subst he
    have hf : ¬(m0.FindSpace request.index ≠ kMaxSpaces) :=
      fun hne => h2 ((findSpace_ne_iff _ _ hn).1 hne)
    simp [h1, hf, h3, h4]
  · injection he with he; subst he
    have hf : ¬(m0.FindSpace request.index ≠ kMaxSpaces) :=
      fun hne => h2 ((findSpace_ne_iff _ _ hn).1 hne)
    simp [h1, hf, h3, h4, h5]
  · injection he with he; subst he
    have hf : ¬(m0.FindSpace request.index ≠ kMaxSpaces) :=
      fun hne => h2 ((findSpace_ne_iff _ _ hn).1 hne)
    have h6m : controlsMaskOf request.controls &&& kUnsupportedControlsMask ≠ 0 :=
      (unsupported_check_iff _ hc).2 h6
    simp [h1, hf, h3, h4, h5, h6m]
  · injection he with he; subst he
    have hf : ¬(m0.FindSpace request.index ≠ kMaxSpaces) :=
      fun hne => h2 ((findSpace_ne_iff _ _ hn).1 hne)
    have h6m : ¬(controlsMaskOf request.controls &&& kUnsupportedControlsMask ≠ 0) :=
      fun hne => h6 ((unsupported_check_iff _ hc).1 hne)
    have h7m : controlsMaskOf request.controls &&&
          (1 <<< NV_CONTROL_PERSISTENT_WRITE_LOCK) ≠ 0 ∧
        controlsMaskOf request.controls &&& (1 <<< NV_CONTROL_BOOT_WRITE_LOCK) ≠ 0 :=
      ⟨(bit_check_iff _ _).2 h7.1, (bit_check_iff _ _).2 h7.2⟩
    simp [h1, hf, h3, h4, h5, h6m, h7m]

theorem c4_create_checks_ordered_witness :
    (NvramManager.initFull { initialized_ := true, spaces_ := [{ index := 1 }] } {} {}
        = (true, { initialized_ := true, spaces_ := [{ index := 1 }] }, {})) ∧
    (∀ c ∈ ({ index := 1, size := 2000 } : CreateSpaceRequest).controls, c < 32) ∧
    ({ initialized_ := true, spaces_ := [{ index := 1 }] } : NvramManager).num_spaces_
        ≤ kMaxSpaces ∧
    (specFirstCreateError { initialized_ := true, spaces_ := [{ index := 1 }] }
        { index := 1, size := 2000 } = some .spaceAlreadyExists) ∧
    (NvramManager.CreateSpace { initialized_ := true, spaces_ := [{ index := 1 }] } {} {}
        { index := 1, size := 2000 }
      = (.spaceAlreadyExists, { initialized_ := true, spaces_ := [{ index := 1 }] }, {})) := by
  refine ⟨by decide, by decide, by decide, by decide, ?_⟩
  exact c4_create_checks_ordered _ _ _ _ _ _ _ (by decide) (by decide) (by decide) (by decide)

/-! ## Claim C1: CreateSpace rollback behaviour -/

/-- C1 fails as stated: a `CreateSpace` that passes all seven precondition
checks and then returns `INTERNAL_ERROR` from the contents allocation leaves
the tentative `SpaceListEntry` in the table (`spaces_` is `[{index 1}]`, not
the empty table it started with). -/
theorem c1_counterexample :
    specFirstCreateError { initialized_ := true } { index := 1, size := 16 } = none ∧
    (NvramManager.CreateSpace { initialized_ := true } {} { contentsResizeOk := false }
        { index := 1, size := 16 }).1 = NvResult.internalError ∧
    (NvramManager.CreateSpace { initialized_ := true } {} { contentsResizeOk := false }
        { index := 1, size := 16 }).2.1.spaces_ = [{ index := 1 }] :=
  ⟨by decide, by decide, by decide⟩

theorem writeHeader_eq (m : NvramManager) (s : Storage) (allocOk : Bool)
    (prov : Option Nat) :
    m.WriteHeader s allocOk prov =
      if allocOk = false then (.internalError, s)
      else if s.header.error = true then (.internalError, s)
      else (.success, { s with header := { s.header with blob := some (m.buildHeader prov) } }) := by
  by_cases ha : allocOk = false
  · simp [NvramManager.WriteHeader, ha]
  · by_cases he : s.header.error = true
    · simp [NvramManager.WriteHeader, Storage.StoreHeader, ha, he]
    · simp [NvramManager.WriteHeader, Storage.StoreHeader, ha, he]

theorem storeHeader_spaceSlot (s : Storage) (h : NvramHeader) (i : Nat) :
    ((s.StoreHeader h).2).spaceSlot i = s.spaceSlot i := by
  unfold Storage.StoreHeader
  split <;> rfl

theorem spaceSlot_set_header (s : Storage) (hd : StorageSlot NvramHeader) (i : Nat) :
    ({ s with header := hd } : Storage).spaceSlot i = s.spaceSlot i := rfl

theorem dropLast_append_single {α : Type} (l : List α) (a : α) :
    (l ++ [a]).dropLast = l := by
  simp

/-- C1 (amended): after successful initialization with all seven precondition
checks passing, a non-SUCCESS outcome of the two-phase write (the header write
or the space-blob write) pops the tentative entry, restoring the in-memory
state exactly; but a failure of either allocation while building the
`NvramSpace` (the authorization-value copy or the contents buffer) returns
`INTERNAL_ERROR` with the tentative entry still appended. -/
theorem c1_create_rollback (m : NvramManager) (s : Storage) (env : AllocEnv)
    (request : CreateSpaceRequest) (m0 : NvramManager) (s0 : Storage)
    (hIF : m.initFull s env = (true, m0, s0))
    (hc : ∀ c ∈ request.controls, c < 32)
    (hn : m0.num_spaces_ ≤ kMaxSpaces)
    (hpre : specFirstCreateError m0 request = none) :
    ((({ flags := 0, controls := controlsMaskOf request.controls } : NvramSpace).HasControl
          NV_CONTROL_WRITE_AUTHORIZATION ||
        ({ flags := 0, controls := controlsMaskOf request.controls } : NvramSpace).HasControl
          NV_CONTROL_READ_AUTHORIZATION) = true →
      env.authAssignOk = false →
      m.CreateSpace s env request =
        (.internalError, { m0 with spaces_ := m0.spaces_ ++ [{ index := request.index }] }, s0)) ∧
    (((({ flags := 0, controls := controlsMaskOf request.controls } : NvramSpace).HasControl
          NV_CONTROL_WRITE_AUTHORIZATION ||
        ({ flags := 0, controls := controlsMaskOf request.controls } : NvramSpace).HasControl
          NV_CONTROL_READ_AUTHORIZATION) = true → env.authAssignOk = true) →
      env.contentsResizeOk = false →
      m.CreateSpace s env request =
        (.internalError, { m0 with spaces_ := m0.spaces_ ++ [{ index := request.index }] }, s0)) ∧
    (((({ flags := 0, controls := controlsMaskOf request.controls } : NvramSpace).HasControl
          NV_CONTROL_WRITE_AUTHORIZATION ||
        ({ flags := 0, controls := controlsMaskOf request.controls } : NvramSpace).HasControl
          NV_CONTROL_READ_AUTHORIZATION) = true → env.authAssignOk = true) →
      env.contentsResizeOk = true →
      ((m.CreateSpace s env request).1 = .success ∨
        ((m.CreateSpace s env request).1 = .internalError ∧
          (m.CreateSpace s env request).2.1 = m0))) := by
  unfold specFirstCreateError at hpre
  split_ifs at hpre with h1 h2 h3 h4 h5 h6 h7
  all_goals try simp at hpre
  have hf : ¬(m0.FindSpace request.index ≠ kMaxSpaces) :=
    fun hne => h2 ((findSpace_ne_iff _ _ hn).1 hne)
  have h6m : ¬(controlsMaskOf request.controls &&& kUnsupportedControlsMask ≠ 0) :=
    fun hne => h6 ((unsupported_check_iff _ hc).1 hne)
  have h7m : ¬((controlsMaskOf request.controls &&&
        (1 <<< NV_CONTROL_PERSISTENT_WRITE_LOCK)) ≠ 0 ∧
      (controlsMaskOf request.controls &&& (1 <<< NV_CONTROL_BOOT_WRITE_LOCK)) ≠ 0) := by
    rintro ⟨ha, hb⟩
    exact h7 ⟨(bit_check_iff _ _).1 ha, (bit_check_iff _ _).1 hb⟩
  obtain ⟨mi, md, msp⟩ := m0
  have hmd : md = false := by simpa using h1
  subst hmd
  refine ⟨?_, ?_, ?_⟩
  · intro hna ha
    unfold NvramManager.CreateSpace
    rw [hIF]
    simp [h1, hf, h3, h4, h5, h6m, h7m, hna, ha]
  · intro hna hcr
    unfold NvramManager.CreateSpace
    rw [hIF]
    by_cases hau : (({ flags := 0, controls := controlsMaskOf request.controls } :
          NvramSpace).HasControl NV_CONTROL_WRITE_AUTHORIZATION ||
        ({ flags := 0, controls := controlsMaskOf request.controls } : NvramSpace).HasControl
          NV_CONTROL_READ_AUTHORIZATION) = true
    · have ha := hna hau
      simp [h1, hf, h3, h4, h5, h6m, h7m, hau, ha, hcr]
    · simp [h1, hf, h3, h4, h5, h6m, h7m, hau, hcr]
  · intro hna hcr
    unfold NvramManager.CreateSpace
    rw [hIF]
    by_cases hho : env.headerIndicesOk = false
    · refine Or.inr ?_
      by_cases hau : (({ flags := 0, controls := controlsMaskOf request.controls } :
            NvramSpace).HasControl NV_CONTROL_WRITE_AUTHORIZATION ||
          ({ flags := 0, controls := controlsMaskOf request.controls } : NvramSpace).HasControl
            NV_CONTROL_READ_AUTHORIZATION) = true
      · have ha := hna hau
        simp [h1, hf, h3, h4, h5, h6m, h7m, hau, ha, hcr, writeHeader_eq, hho,
          dropLast_append_single]
      · simp [h1, hf, h3, h4, h5, h6m, h7m, hau, hcr, writeHeader_eq, hho,
          dropLast_append_single]
    · by_cases hhe : s0.header.error = true
      · refine Or.inr ?_
        by_cases hau : (({ flags := 0, controls := controlsMaskOf request.controls } :
              NvramSpace).HasControl NV_CONTROL_WRITE_AUTHORIZATION ||
            ({ flags := 0, controls := controlsMaskOf request.controls } : NvramSpace).HasControl
              NV_CONTROL_READ_AUTHORIZATION) = true
        · have ha := hna hau
          simp [h1, hf, h3, h4, h5, h6m, h7m, hau, ha, hcr, writeHeader_eq, hho, hhe,
            dropLast_append_single]
        · simp [h1, hf, h3, h4, h5, h6m, h7m, hau, hcr, writeHeader_eq, hho, hhe,
            dropLast_append_single]
      · by_cases hsp : (s0.spaceSlot request.index).error = true
        · refine Or.inr ?_
          by_cases hau : (({ flags := 0, controls := controlsMaskOf request.controls } :
                NvramSpace).HasControl NV_CONTROL_WRITE_AUTHORIZATION ||
              ({ flags := 0, controls := controlsMaskOf request.controls } :
                NvramSpace).HasControl NV_CONTROL_READ_AUTHORIZATION) = true
          · have ha := hna hau
            simp [h1, hf, h3, h4, h5, h6m, h7m, hau, ha, hcr, writeHeader_eq, hho, hhe,
              hsp, WriteSpace, Storage.StoreSpace, spaceSlot_set_header,
              dropLast_append_single]
          · simp [h1, hf, h3, h4, h5, h6m, h7m, hau, hcr, writeHeader_eq, hho, hhe,
              hsp, WriteSpace, Storage.StoreSpace, spaceSlot_set_header,
              dropLast_append_single]
        · refine Or.inl ?_
          by_cases hau : (({ flags := 0, controls := controlsMaskOf request.controls } :
                NvramSpace).HasControl NV_CONTROL_WRITE_AUTHORIZATION ||
              ({ flags := 0, controls := controlsMaskOf request.controls } :
                NvramSpace).HasControl NV_CONTROL_READ_AUTHORIZATION) = true
          · have ha := hna hau
            simp [h1, hf, h3, h4, h5, h6m, h7m, hau, ha, hcr, writeHeader_eq, hho, hhe,
              hsp, WriteSpace, Storage.StoreSpace, spaceSlot_set_header,
              dropLast_append_single]
          · simp [h1, hf, h3, h4, h5, h6m, h7m, hau, hcr, writeHeader_eq, hho, hhe,
              hsp, WriteSpace, Storage.StoreSpace, spaceSlot_set_header,
              dropLast_append_single]

theorem c1_create_rollback_witness :
    NvramManager.CreateSpace { initialized_ := true } {} { contentsResizeOk := false }
        { index := 1, size := 16 } =
      (.internalError, { initialized_ := true, spaces_ := [{ index := 1 }] }, {}) := by
  have h := c1_create_rollback { initialized_ := true } {} { contentsResizeOk := false }
      { index := 1, size := 16 } { initialized_ := true } {} (by decide) (by decide) (by decide)
      (by decide)
  simpa using h.2.1 (by decide) rfl

/-! ## Claim C2: the provisional-delete trigger during recovery -/

/-- C2 fails as stated: with header `allocated_indices = [1]`,
`provisional_index = some 4` and the provisional blob absent
(`provisional_in_storage = false`), the recovery pass still invokes
`delete_space(4)`, although the claim's trigger condition requires the blob to
be present in storage. -/
theorem c2_counterexample :
    (freshManager.initCore
        (.ok { version := 1, flags := 0, allocated_indices := [1], provisional_index := some 4 })
        (fun _ => .notFound) (fun _ => .kSuccess)).deleteIndex = some 4 ∧
    provisionalInStorage (some 4) (fun _ => LoadR.notFound) = false ∧
    (4 ∈ [1] : Prop) = False :=
  ⟨by decide, by decide, by simp⟩

/-- C2 (amended): when the recovery pass starts uninitialized, loads a header
that passes the version and capacity checks and carries
`provisional_index = some p`, it invokes `delete_space(p)` exactly when it is
NOT the case that `p` is an allocated index whose provisional blob is in
storage (so in particular also when the blob is absent); and whenever that
delete is attempted, a `NotFound` or `Err` result makes the pass fail. -/
theorem c2_provisional_delete (m : NvramManager) (header : NvramHeader) (p : Nat)
    (lsr : Nat → LoadR NvramSpace) (dr : Nat → Status)
    (hm : m.initialized_ = false)
    (hv : header.version ≤ NvramHeader.kVersion)
    (hlen : header.allocated_indices.length ≤ kMaxSpaces)
    (hp : header.provisional_index = some p) :
    ((m.initCore (.ok header) lsr dr).deleteIndex = some p ↔
      ¬(p ∈ header.allocated_indices ∧ provisionalInStorage (some p) lsr = true)) ∧
    ((dr p = .kNotFound ∨ dr p = .kStorageError) →
      (m.initCore (.ok header) lsr dr).deleteIndex = some p →
      (m.initCore (.ok header) lsr dr).ok = false) := by
  unfold NvramManager.initCore
  simp only [hm, Bool.false_eq_true, if_false, hp]
  rw [if_neg (by omega), if_neg (by omega)]
  by_cases hd : deleteProvisionalFlag header.allocated_indices (some p)
      (provisionalInStorage (some p) lsr) = true
  · have hmem : ¬(p ∈ header.allocated_indices ∧ provisionalInStorage (some p) lsr = true) := by
      unfold deleteProvisionalFlag at hd
      simp only [Bool.not_eq_true', Bool.and_eq_false_iff, decide_eq_false_iff_not] at hd
      rintro ⟨h1', h2'⟩
      rcases hd with hd | hd
      · exact hd h1'
      · rw [h2'] at hd; simp at hd
    rw [if_pos hd]
    cases hdr : dr p with
    | kSuccess =>
        refine ⟨by simpa using hmem, ?_⟩
        rintro (h | h) <;> exact absurd h (by simp)
    | kNotFound => exact ⟨by simpa using hmem, fun _ _ => rfl⟩
    | kStorageError => exact ⟨by simpa using hmem, fun _ _ => rfl⟩
  · have hmem : p ∈ header.allocated_indices ∧ provisionalInStorage (some p) lsr = true := by
      unfold deleteProvisionalFlag at hd
      simp at hd
      exact hd
    rw [if_neg hd]
    refine ⟨by simpa using hmem, ?_⟩
    intro _ hdel
    exact absurd hdel (by simp)

theorem c2_provisional_delete_witness :
    (freshManager.initCore
        (.ok { version := 1, flags := 0, allocated_indices := [1], provisional_index := some 4 })
        (fun _ => .ok {}) (fun _ => .kNotFound)).ok = false := by
  have h := c2_provisional_delete freshManager
      { version := 1, flags := 0, allocated_indices := [1], provisional_index := some 4 } 4
      (fun _ => .ok {}) (fun _ => .kNotFound) (by decide) (by decide) (by decide) (by decide)
  exact h.2 (Or.inl rfl) (h.1.2 (by decide))

/-! ## Claim C3: retry after a failed recovery duplicates table entries -/

def c3Header : NvramHeader :=
  { version := 1, flags := 0, allocated_indices := [1], provisional_index := some 2 }

def c3Space : NvramSpace := { contents := [0, 0] }

/-- First-attempt storage: header present, space 1 present, the provisional
space 2 present but erroring (so its load and delete both fail). -/
def c3Storage1 : Storage :=
  { header := { blob := some c3Header },
    spaces := [(1, { blob := some c3Space }), (2, { blob := some c3Space, error := true })] }

/-- Second-attempt storage: identical but the error on space 2 is gone. -/
def c3Storage2 : Storage :=
  { header := { blob := some c3Header },
    spaces := [(1, { blob := some c3Space }), (2, { blob := some c3Space, error := false })] }

/-- C3 fails on the code: the first recovery attempt loads the header
successfully, appends the bookkeeping entry for index 1 and then fails at the
provisional delete; the retry (after the storage error clears) succeeds but
appends index 1 again, so the resulting table lists index 1 twice — it is not
duplicate-free and does not equal `allocated_indices = [1]` as a set with
multiplicity. -/
theorem c3_retry_duplicates :
    c3Storage1.LoadHeader = .ok c3Header ∧
    (freshManager.initFull c3Storage1 {}).1 = false ∧
    ((freshManager.initFull c3Storage1 {}).2.1.initFull c3Storage2 {}).1 = true ∧
    (((freshManager.initFull c3Storage1 {}).2.1.initFull c3Storage2 {}).2.1.spaces_.map
        (·.index)) = [1, 1] ∧
    ¬(((freshManager.initFull c3Storage1 {}).2.1.initFull c3Storage2 {}).2.1.spaces_.map
        (·.index)).Nodup := by
  refine ⟨by decide, by decide, by decide, by decide, by decide⟩

/-! ## Claim C6: the load_header case analysis -/

/-- C6: on a fresh (uninitialized, empty-table) manager the recovery pass
performs the spec's case analysis on `load_header`: `Err` fails the pass (the
request returns INTERNAL_ERROR and the manager stays uninitialized, so a later
request retries); `NotFound` marks the manager initialized with an empty
SpaceTable and returns true; a loaded header with `version > KNOWN_VERSION`
fails the pass, so every request against such storage returns
INTERNAL_ERROR. -/
theorem c6_load_header_cases (m : NvramManager) (s : Storage) (env : AllocEnv)
    (hm : m.initialized_ = false) (hsp : m.spaces_ = []) :
    (s.LoadHeader = .error →
      m.initFull s env = (false, m, s) ∧
      (m.GetInfo s env).1 = .internalError ∧
      (m.GetInfo s env).2.2.1.initialized_ = false) ∧
    (s.LoadHeader = .notFound →
      m.initFull s env = (true, { m with initialized_ := true }, s) ∧
      (m.initFull s env).2.1.spaces_ = []) ∧
    (∀ h : NvramHeader, s.LoadHeader = .ok h → NvramHeader.kVersion < h.version →
      m.initFull s env = (false, m, s) ∧
      (m.GetInfo s env).1 = .internalError ∧
      (∀ q, (m.CreateSpace s env q).1 = .internalError) ∧
      (∀ i, (m.GetSpaceInfo s env i).1 = .internalError) ∧
      (m.DisableCreate s env).1 = .internalError) := by
  refine ⟨?_, ?_, ?_⟩
  · intro hld
    have hIF : m.initFull s env = (false, m, s) := by
      simp [NvramManager.initFull, NvramManager.initCore, hm, hld]
    exact ⟨hIF, by simp [NvramManager.GetInfo, hIF], by simp [NvramManager.GetInfo, hIF, hm]⟩
  · intro hld
    have hIF : m.initFull s env = (true, { m with initialized_ := true }, s) := by
      simp [NvramManager.initFull, NvramManager.initCore, hm, hld]
    exact ⟨hIF, by simp [hIF, hsp]⟩
  · intro h hld hv
    have hIF : m.initFull s env = (false, m, s) := by
      simp [NvramManager.initFull, NvramManager.initCore, hm, hld, hv]
    refine ⟨hIF, by simp [NvramManager.GetInfo, hIF], fun q => ?_, fun i => ?_, ?_⟩
    · simp [NvramManager.CreateSpace, hIF]
    · simp [NvramManager.GetSpaceInfo, hIF]
    · simp [NvramManager.DisableCreate, hIF]

theorem c6_load_header_cases_witness :
    ((freshManager.initFull { header := { error := true } } {}).1 = false ∧
      (freshManager.GetInfo { header := { error := true } } {}).1 = .internalError) ∧
    (freshManager.initFull {} {} = (true, { initialized_ := true }, {})) ∧
    ((freshManager.GetInfo { header := { blob := some { version := 2 } } } {}).1
        = .internalError ∧
      (freshManager.GetSpaceInfo { header := { blob := some { version := 2 } } } {} 1).1
        = .internalError) := by
  have h1 := c6_load_header_cases freshManager { header := { error := true } } {} rfl rfl
  have h2 := c6_load_header_cases freshManager {} {} rfl rfl
  have h3 := c6_load_header_cases freshManager { header := { blob := some { version := 2 } } }
      {} rfl rfl
  refine ⟨⟨?_, (h1.1 rfl).2.1⟩, (h2.2.1 rfl).1, (h3.2.2 { version := 2 } rfl (by decide)).2.1,
    (h3.2.2 { version := 2 } rfl (by decide)).2.2.2.1 1⟩
  rw [(h1.1 rfl).1]

/-! ## Claim C8: error mapping of the space load in GetSpaceInfo -/

/-- C8: with an initialized manager, a `GetSpaceInfo` request for an index not
in the SpaceTable answers SPACE_DOES_NOT_EXIST for every storage state (the
result does not consult storage) and returns the storage unchanged; for an
index in the table, a `NotFound` from the space load yields INTERNAL_ERROR, as
does an `Err`. -/
theorem c8_load_error_mapping (m : NvramManager) (env : AllocEnv) (i : Nat)
    (hm : m.initialized_ = true) :
    (m.FindSpace i = kMaxSpaces →
      ∀ s : Storage, (m.GetSpaceInfo s env i).1 = .spaceDoesNotExist ∧
        (m.GetSpaceInfo s env i).2.2.2 = s) ∧
    (m.FindSpace i ≠ kMaxSpaces →
      ∀ s : Storage, s.LoadSpace i = .notFound → (m.GetSpaceInfo s env i).1 = .internalError) ∧
    (m.FindSpace i ≠ kMaxSpaces →
      ∀ s : Storage, s.LoadSpace i = .error → (m.GetSpaceInfo s env i).1 = .internalError) := by
  refine ⟨?_, ?_, ?_⟩
  · intro hf s
    constructor <;>
      simp [NvramManager.GetSpaceInfo, initFull_of_initialized m s env hm,
        NvramManager.LoadSpaceRecord, hf]
  · intro hf s hld
    simp [NvramManager.GetSpaceInfo, initFull_of_initialized m s env hm,
      NvramManager.LoadSpaceRecord, hf, hld]
  · intro hf s hld
    simp [NvramManager.GetSpaceInfo, initFull_of_initialized m s env hm,
      NvramManager.LoadSpaceRecord, hf, hld]

theorem c8_load_error_mapping_witness :
    (NvramManager.GetSpaceInfo { initialized_ := true, spaces_ := [{ index := 1 }] } {} {} 2).1
        = NvResult.spaceDoesNotExist ∧
    (NvramManager.GetSpaceInfo { initialized_ := true, spaces_ := [{ index := 1 }] } {} {} 1).1
        = NvResult.internalError ∧
    (NvramManager.GetSpaceInfo { initialized_ := true, spaces_ := [{ index := 1 }] }
        { spaces := [(1, { error := true })] } {} 1).1 = NvResult.internalError := by
  have h1 := c8_load_error_mapping { initialized_ := true, spaces_ := [{ index := 1 }] } {} 1 rfl
  have h2 := c8_load_error_mapping { initialized_ := true, spaces_ := [{ index := 1 }] } {} 2 rfl
  exact ⟨(h2.1 (by decide) {}).1, h1.2.1 (by decide) {} (by decide),
    h1.2.2 (by decide) { spaces := [(1, { error := true })] } (by decide)⟩

/-! ## Claim C9: GetInfo -/

/-- C9 fails as stated: initialization succeeds, yet `GetInfo` returns
`INTERNAL_ERROR` (not SUCCESS) when the space-list allocation fails. -/
theorem c9_counterexample :
    (NvramManager.initFull { initialized_ := true } {} { listOk := false }).1 = true ∧
    (NvramManager.GetInfo { initialized_ := true } {} { listOk := false }).1
      ≠ NvResult.success :=
  ⟨by decide, by decide⟩

/-- C9 (amended): whenever initialization succeeds and the space-list
allocation succeeds, `GetInfo` returns SUCCESS with
`total_size = MAX_SPACES x MAX_SPACE_SIZE`,
`available_size = (MAX_SPACES - N) x MAX_SPACE_SIZE`, `max_spaces = MAX_SPACES`
and `space_list` the table's indices in stored order; if the allocation fails
it returns INTERNAL_ERROR.  In both cases manager and storage are exactly the
post-initialization values, and on an already-initialized manager the result
and response do not depend on the storage at all and the storage is passed
through unchanged. -/
theorem c9_getinfo (m : NvramManager) (s : Storage) (env : AllocEnv)
    (m0 : NvramManager) (s0 : Storage)
    (hIF : m.initFull s env = (true, m0, s0)) :
    (env.listOk = true →
      m.GetInfo s env = (.success,
        { total_size := kMaxSpaceSize * kMaxSpaces,
          available_size := kMaxSpaceSize * (kMaxSpaces - m0.num_spaces_),
          max_spaces := kMaxSpaces,
          space_list := m0.spaces_.map (·.index) }, m0, s0)) ∧
    (env.listOk = false →
      m.GetInfo s env = (.internalError,
        { total_size := kMaxSpaceSize * kMaxSpaces,
          available_size := kMaxSpaceSize * (kMaxSpaces - m0.num_spaces_),
          max_spaces := kMaxSpaces,
          space_list := [] }, m0, s0)) ∧
    (m.initialized_ = true →
      ∀ t : Storage, m.GetInfo t env = ((m.GetInfo s env).1, (m.GetInfo s env).2.1, m, t)) := by
  refine ⟨?_, ?_, ?_⟩
  · intro hl
    simp [NvramManager.GetInfo, hIF, hl]
  · intro hl
    simp [NvramManager.GetInfo, hIF, hl]
  · intro hm t
    cases hl : env.listOk <;>
      simp [NvramManager.GetInfo, initFull_of_initialized m t env hm,
        initFull_of_initialized m s env hm, hl]

theorem c9_getinfo_witness :
    (NvramManager.initFull { initialized_ := true } {} {}
        = (true, { initialized_ := true }, {})) ∧
    NvramManager.GetInfo { initialized_ := true } {} {} = (.success,
      { total_size := 32768, available_size := 32768, max_spaces := 32, space_list := [] },
      { initialized_ := true }, {}) := by
  refine ⟨by decide, ?_⟩
  have h := c9_getinfo { initialized_ := true } {} {} { initialized_ := true } {} (by decide)
  simpa using h.1 rfl

/-! ## Claim C10: the controls vector of GetSpaceInfo -/

set_option maxRecDepth 4000

/-- C10: a successful `GetSpaceInfo` reports the space's controls as the list
of exactly the bit positions set in the controls bitmask, each appearing once,
in strictly increasing order. -/
theorem c10_controls_vector (m : NvramManager) (s : Storage) (env : AllocEnv) (i : Nat)
    (sp : NvramSpace)
    (hm : m.initialized_ = true)
    (hload : s.LoadSpace i = .ok sp)
    (hsucc : (m.GetSpaceInfo s env i).1 = .success) :
    List.Pairwise (· < ·) (m.GetSpaceInfo s env i).2.1.controls ∧
    ((m.GetSpaceInfo s env i).2.1.controls).Nodup ∧
    (∀ c, c ∈ (m.GetSpaceInfo s env i).2.1.controls ↔ (c < 32 ∧ sp.HasControl c = true)) := by
  by_cases hf : m.FindSpace i = kMaxSpaces
  · exfalso
    have : (m.GetSpaceInfo s env i).1 = .spaceDoesNotExist := by
      simp [NvramManager.GetSpaceInfo, initFull_of_initialized m s env hm,
        NvramManager.LoadSpaceRecord, hf]
    rw [this] at hsucc
    exact absurd hsucc (by simp)
  · by_cases hgc : env.controlsOk = false ∧
        (List.range 32).filter (fun c => sp.HasControl c) ≠ []
    · exfalso
      have : (m.GetSpaceInfo s env i).1 = .internalError := by
        simp [NvramManager.GetSpaceInfo, initFull_of_initialized m s env hm,
          NvramManager.LoadSpaceRecord, hf, hload, GetControlsVector, hgc]
      rw [this] at hsucc
      exact absurd hsucc (by simp)
    · have hgc2 := hgc
      simp at hgc2
      have hgc3 : ¬(env.controlsOk = false ∧ ∃ x, x < 32 ∧ sp.HasControl x = true) := by
        rintro ⟨h1', x, hx, hcx⟩
        exact absurd (hgc2 h1' x hx) (by simp [hcx])
      have hresp : (m.GetSpaceInfo s env i).2.1.controls
          = (List.range 32).filter (fun c => sp.HasControl c) := by
        simp [NvramManager.GetSpaceInfo, initFull_of_initialized m s env hm,
          NvramManager.LoadSpaceRecord, hf, hload, GetControlsVector, hgc3]
        try (split_ifs <;> rfl)
      rw [hresp]
      have hpw : List.Pairwise (· < ·) ((List.range 32).filter (fun c => sp.HasControl c)) :=
        List.Pairwise.sublist (List.filter_sublist _) (List.pairwise_lt_range 32)
      refine ⟨hpw, hpw.imp (fun hab => Nat.ne_of_lt hab), fun c => ?_⟩
      simp [List.mem_filter, List.mem_range]

theorem c10_controls_vector_witness :
    ((NvramManager.GetSpaceInfo { initialized_ := true, spaces_ := [{ index := 1 }] }
        { spaces := [(1, { blob := some { controls := 38 } })] } {} 1).1
      = NvResult.success) ∧
    ((NvramManager.GetSpaceInfo { initialized_ := true, spaces_ := [{ index := 1 }] }
        { spaces := [(1, { blob := some { controls := 38 } })] } {} 1).2.1.controls
      = [1, 2, 5]) ∧
    (∀ c, c ∈ (NvramManager.GetSpaceInfo { initialized_ := true, spaces_ := [{ index := 1 }] }
        { spaces := [(1, { blob := some { controls := 38 } })] } {} 1).2.1.controls ↔
      (c < 32 ∧ ({ controls := 38 } : NvramSpace).HasControl c = true)) := by
  refine ⟨by decide, by decide, ?_⟩
  exact (c10_controls_vector _ _ _ 1 { controls := 38 } rfl (by decide) (by decide)).2.2

/-! ## Claim C7: a half-created provisional space is skipped -/

theorem deleteSpace_of_load_notFound (s : Storage) (i : Nat)
    (h : s.LoadSpace i = .notFound) : (s.DeleteSpace i).1 = .kSuccess := by
  unfold Storage.LoadSpace StorageSlot.load at h
  unfold Storage.DeleteSpace
  by_cases he : (s.spaceSlot i).error = true
  · rw [if_pos he] at h
    exact absurd h (by simp)
  · simp [he]

theorem not_mem_appendEntries_skip (alloc : List Nat) (i : Nat) :
    i ∉ ((appendEntries [] alloc (some i) false).map (·.index)) := by
  intro hmem
  simp only [appendEntries, List.nil_append, List.mem_map] at hmem
  obtain ⟨e, he, hei⟩ := hmem
  rw [List.mem_filterMap] at he
  obtain ⟨a, _, hfa⟩ := he
  by_cases hia : i = a
  · rw [if_pos ⟨by rw [hia], trivial⟩] at hfa
    exact absurd hfa (by simp)
  · rw [if_neg (fun hc => hia (Option.some.inj hc.1))] at hfa
    injection hfa with hfa
    rw [← hfa] at hei
    exact hia hei.symm

/-- C7: when the loaded header lists the provisional index `i` among the
allocated indices but the space blob for `i` is absent (the create never
completed), recovery on a fresh manager succeeds with `i` omitted from the
SpaceTable; afterwards GetInfo's space_list never contains `i` and
`GetSpaceInfo(i)` answers SPACE_DOES_NOT_EXIST. -/
theorem c7_skip_halfcreated (s : Storage) (env env2 : AllocEnv) (h : NvramHeader) (i : Nat)
    (hH : s.LoadHeader = .ok h)
    (hv : h.version ≤ NvramHeader.kVersion)
    (hlen : h.allocated_indices.length ≤ kMaxSpaces)
    (hpi : h.provisional_index = some i)
    (hmem : i ∈ h.allocated_indices)
    (hload : s.LoadSpace i = .notFound) :
    (freshManager.initFull s env).1 = true ∧
    i ∉ ((freshManager.initFull s env).2.1.spaces_.map (·.index)) ∧
    i ∉ ((freshManager.initFull s env).2.1.GetInfo
        (freshManager.initFull s env).2.2 env2).2.1.space_list ∧
    ((freshManager.initFull s env).2.1.GetSpaceInfo
        (freshManager.initFull s env).2.2 env2 i).1 = .spaceDoesNotExist := by
  have hdel : (s.DeleteSpace i).1 = Status.kSuccess := deleteSpace_of_load_notFound s i hload
  have hIC : (freshManager.initCore s.LoadHeader s.LoadSpace (fun j => (s.DeleteSpace j).1))
      = { ok := true,
          m := { initialized_ := true,
                 disable_create_ := h.HasFlag NvramHeader.kFlagDisableCreate,
                 spaces_ := appendEntries [] h.allocated_indices (some i) false },
          deleteIndex := some i, clearHeader := true } := by
    rw [hH]
    unfold NvramManager.initCore
    simp [freshManager, hpi, provisionalInStorage, hload, hdel, deleteProvisionalFlag, hmem,
      Nat.not_lt.2 hv, Nat.not_lt.2 hlen]
  refine ⟨?_, ?_, ?_, ?_⟩
  · rw [initFull_fst, hIC]
  · rw [initFull_snd_fst, hIC]
    exact not_mem_appendEntries_skip _ _
  · rw [initFull_snd_fst, hIC]
    cases hl : env2.listOk
    · simp [NvramManager.GetInfo, initFull_of_initialized, hl]
    · simp [NvramManager.GetInfo, initFull_of_initialized, hl]
      intro x hx hxi
      exact not_mem_appendEntries_skip h.allocated_indices i (List.mem_map.mpr ⟨x, hx, hxi⟩)
  · rw [initFull_snd_fst, hIC]
    have hfa : findSpaceAux (appendEntries [] h.allocated_indices (some i) false) i 0
        = kMaxSpaces :=
      findSpaceAux_of_not_mem _ _ (not_mem_appendEntries_skip _ _) 0
    simp [NvramManager.GetSpaceInfo, initFull_of_initialized, NvramManager.LoadSpaceRecord,
      NvramManager.FindSpace, hfa]

def c7Header : NvramHeader :=
  { version := 1, allocated_indices := [1], provisional_index := some 1 }

def c7Storage : Storage := { header := { blob := some c7Header } }

theorem c7_skip_halfcreated_witness :
    (freshManager.initFull c7Storage {}).1 = true ∧
    ((freshManager.initFull c7Storage {}).2.1.GetSpaceInfo
        (freshManager.initFull c7Storage {}).2.2 {} 1).1 = .spaceDoesNotExist := by
  have hres := c7_skip_halfcreated c7Storage {} {} c7Header 1
      (by decide) (by decide) (by decide) (by decide) (by decide) (by decide)
  exact ⟨hres.1, hres.2.2.2⟩

/-! ## Claim C5: DisableCreate is irreversible, also across reboots -/

/-- In-memory half of the disable invariant: initialized with the flag set. -/
def DisabledMem (m : NvramManager) : Prop :=
  m.initialized_ = true ∧ m.disable_create_ = true

/-- Persistent half: the stored header carries the DISABLE_CREATE flag at the
current version. -/
def DisabledHeader (s : Storage) : Prop :=
  ∃ h : NvramHeader, s.header.blob = some h ∧
    h.HasFlag NvramHeader.kFlagDisableCreate = true ∧ h.version = NvramHeader.kVersion

theorem buildHeader_disabled (m : NvramManager) (hd : m.disable_create_ = true)
    (prov : Option Nat) :
    (m.buildHeader prov).HasFlag NvramHeader.kFlagDisableCreate = true ∧
    (m.buildHeader prov).version = NvramHeader.kVersion := by
  constructor <;>
    simp [NvramManager.buildHeader, NvramHeader.HasFlag, hd, NvramHeader.kFlagDisableCreate]

theorem getInfo_state_initialized (m : NvramManager) (s : Storage) (env : AllocEnv)
    (hi : m.initialized_ = true) :
    (m.GetInfo s env).2.2.1 = m ∧ (m.GetInfo s env).2.2.2 = s := by
  cases hl : env.listOk <;>
    constructor <;>
      simp [NvramManager.GetInfo, initFull_of_initialized m s env hi, hl]

theorem getSpaceInfo_state_initialized (m : NvramManager) (s : Storage) (env : AllocEnv)
    (i : Nat) (hi : m.initialized_ = true) :
    (m.GetSpaceInfo s env i).2.2.1 = m ∧ (m.GetSpaceInfo s env i).2.2.2 = s := by
  simp only [NvramManager.GetSpaceInfo, initFull_of_initialized m s env hi]
  repeat' split
  all_goals simp

theorem createSpace_disabled (m : NvramManager) (s : Storage) (env : AllocEnv)
    (q : CreateSpaceRequest) (hi : m.initialized_ = true) (hd : m.disable_create_ = true) :
    m.CreateSpace s env q = (.operationDisabled, m, s) := by
  simp [NvramManager.CreateSpace, initFull_of_initialized m s env hi, hd]

theorem disableCreate_eq (m : NvramManager) (s : Storage) (env : AllocEnv)
    (hi : m.initialized_ = true) :
    m.DisableCreate s env =
      ((({ m with disable_create_ := true } : NvramManager).WriteHeader s
          env.headerIndicesOk none).1,
       { m with disable_create_ := true },
       (({ m with disable_create_ := true } : NvramManager).WriteHeader s
          env.headerIndicesOk none).2) := by
  unfold NvramManager.DisableCreate
  rw [initFull_of_initialized m s env hi]
  rfl

theorem applyOp_disabledMem (m : NvramManager) (s : Storage) (env : AllocEnv) (op : Op)
    (h : DisabledMem m) : DisabledMem (applyOp m s env op).1 := by
  obtain ⟨hi, hd⟩ := h
  cases op with
  | getInfo =>
      simp only [applyOp]
      rw [(getInfo_state_initialized m s env hi).1]
      exact ⟨hi, hd⟩
  | createSpace q =>
      simp only [applyOp]
      rw [createSpace_disabled m s env q hi hd]
      exact ⟨hi, hd⟩
  | getSpaceInfo i =>
      simp only [applyOp]
      rw [(getSpaceInfo_state_initialized m s env i hi).1]
      exact ⟨hi, hd⟩
  | disableCreate =>
      simp only [applyOp]
      rw [disableCreate_eq m s env hi]
      exact ⟨hi, rfl⟩

theorem applyOp_disabledHeader (m : NvramManager) (s : Storage) (env : AllocEnv) (op : Op)
    (hm : DisabledMem m) (hh : DisabledHeader s) : DisabledHeader (applyOp m s env op).2 := by
  obtain ⟨hi, hd⟩ := hm
  cases op with
  | getInfo =>
      simp only [applyOp]
      rw [(getInfo_state_initialized m s env hi).2]
      exact hh
  | createSpace q =>
      simp only [applyOp]
      rw [createSpace_disabled m s env q hi hd]
      exact hh
  | getSpaceInfo i =>
      simp only [applyOp]
      rw [(getSpaceInfo_state_initialized m s env i hi).2]
      exact hh
  | disableCreate =>
      simp only [applyOp]
      rw [disableCreate_eq m s env hi]
      rw [writeHeader_eq]
      split_ifs with h1 h2
      · exact hh
      · exact hh
      · refine ⟨({ m with disable_create_ := true } : NvramManager).buildHeader none, rfl, ?_⟩
        exact buildHeader_disabled { m with disable_create_ := true } rfl none

theorem runOps_disabled : ∀ (ops : List (Op × AllocEnv)) (ms : NvramManager × Storage),
    DisabledMem ms.1 → (DisabledHeader ms.2 → DisabledHeader (runOps ops ms).2) ∧
      DisabledMem (runOps ops ms).1
  | [], _, hm => ⟨fun hh => hh, hm⟩
  | (op, env) :: rest, ms, hm =>
      have hm2 := applyOp_disabledMem ms.1 ms.2 env op hm
      have ih := runOps_disabled rest (applyOp ms.1 ms.2 env op) hm2
      ⟨fun hh => ih.1 (applyOp_disabledHeader ms.1 ms.2 env op hm hh), ih.2⟩

theorem reboot_disabled (s : Storage) (env : AllocEnv) (hh : DisabledHeader s)
    (hok : (freshManager.initFull s env).1 = true) :
    (freshManager.initFull s env).2.1.disable_create_ = true := by
  obtain ⟨h, hb, hflag, hver⟩ := hh
  by_cases he : s.header.error = true
  · rw [initFull_fst] at hok
    have hH : s.LoadHeader = .error := by
      unfold Storage.LoadHeader StorageSlot.load
      rw [if_pos he]
    rw [hH] at hok
    simp [NvramManager.initCore, freshManager] at hok
  · have hH : s.LoadHeader = .ok h := by
      unfold Storage.LoadHeader StorageSlot.load
      rw [if_neg he, hb]
    rw [initFull_fst, hH] at hok
    rw [initFull_snd_fst, hH]
    rw [initCore_ok_shape freshManager h s.LoadSpace (fun j => (s.DeleteSpace j).1) rfl hok]
    exact hflag

theorem createSpace_disabled_after_init (m : NvramManager) (s : Storage) (env : AllocEnv)
    (q : CreateSpaceRequest) (hok : (m.initFull s env).1 = true)
    (hd : (m.initFull s env).2.1.disable_create_ = true) :
    (m.CreateSpace s env q).1 = .operationDisabled := by
  unfold NvramManager.CreateSpace
  rcases hIF : m.initFull s env with ⟨ok, m0, s0⟩
  rw [hIF] at hok hd
  simp only at hok hd
  subst hok
  simp [hd]

theorem disableCreate_success_header (m : NvramManager) (s : Storage) (env : AllocEnv)
    (hi : m.initialized_ = true) (hr : (m.DisableCreate s env).1 = .success) :
    DisabledHeader (m.DisableCreate s env).2.2 := by
  unfold DisabledHeader
  rw [disableCreate_eq m s env hi] at hr ⊢
  rw [writeHeader_eq] at hr ⊢
  split_ifs at hr ⊢ with h1 h2
  exact ⟨_, rfl, buildHeader_disabled _ rfl none⟩

/-- C5: once `DisableCreate` runs on an initialized manager, the
`disable_create_` flag stays set through every later request and every
subsequent `CreateSpace` returns OPERATION_DISABLED; and when the
`DisableCreate` committed (returned SUCCESS), the flag survives a reboot: a
freshly constructed manager over the resulting storage, whenever its
initialization succeeds, again answers every `CreateSpace` with
OPERATION_DISABLED.  No operation of the embedded command set ever clears the
flag. -/
theorem c5_disable_create_irreversible (m : NvramManager) (s : Storage) (env : AllocEnv)
    (hIF : (m.initFull s env).1 = true) :
    (∀ ops : List (Op × AllocEnv),
      (runOps ops ((m.DisableCreate s env).2.1, (m.DisableCreate s env).2.2)).1.disable_create_
        = true) ∧
    (∀ (ops : List (Op × AllocEnv)) (env2 : AllocEnv) (q : CreateSpaceRequest),
      ((runOps ops ((m.DisableCreate s env).2.1,
          (m.DisableCreate s env).2.2)).1.CreateSpace
        (runOps ops ((m.DisableCreate s env).2.1, (m.DisableCreate s env).2.2)).2 env2 q).1
        = .operationDisabled) ∧
    ((m.DisableCreate s env).1 = .success →
      ∀ (ops : List (Op × AllocEnv)) (env3 : AllocEnv) (q : CreateSpaceRequest),
        (freshManager.initFull
            (runOps ops ((m.DisableCreate s env).2.1, (m.DisableCreate s env).2.2)).2 env3).1
          = true →
        (freshManager.CreateSpace
            (runOps ops ((m.DisableCreate s env).2.1, (m.DisableCreate s env).2.2)).2 env3
            q).1 = .operationDisabled) := by
  rcases hIF2 : m.initFull s env with ⟨ok, m0, s0⟩
  rw [hIF2] at hIF
  simp only at hIF
  subst hIF
  have hfst : (m.initFull s env).1 = true := by rw [hIF2]
  have hsnd : (m.initFull s env).2.1 = m0 := by rw [hIF2]
  have hi0 : m0.initialized_ = true := by
    rw [← hsnd, initFull_snd_fst]
    exact initCore_ok_initialized m _ _ _ (by rw [← initFull_fst, hfst])
  have hdc : m.DisableCreate s env =
      ((({ m0 with disable_create_ := true } : NvramManager).WriteHeader s0
          env.headerIndicesOk none).1,
       { m0 with disable_create_ := true },
       (({ m0 with disable_create_ := true } : NvramManager).WriteHeader s0
          env.headerIndicesOk none).2) := by
    unfold NvramManager.DisableCreate
    rw [hIF2]
    simp
  have hm1 : DisabledMem (m.DisableCreate s env).2.1 := by
    rw [hdc]
    exact ⟨hi0, rfl⟩
  refine ⟨?_, ?_, ?_⟩
  · intro ops
    exact ((runOps_disabled ops
      ((m.DisableCreate s env).2.1, (m.DisableCreate s env).2.2) hm1).2).2
  · intro ops env2 q
    have hrun := (runOps_disabled ops
      ((m.DisableCreate s env).2.1, (m.DisableCreate s env).2.2) hm1).2
    rw [createSpace_disabled _ _ env2 q hrun.1 hrun.2]
  · intro hr ops env3 q hok3
    have hh2 : DisabledHeader (m.DisableCreate s env).2.2 := by
      unfold DisabledHeader
      rw [hdc] at hr ⊢
      rw [writeHeader_eq] at hr ⊢
      split_ifs at hr ⊢ with h1 h2
      exact ⟨_, rfl, buildHeader_disabled _ rfl none⟩
    have hrun := runOps_disabled ops
      ((m.DisableCreate s env).2.1, (m.DisableCreate s env).2.2) hm1
    have hd3 := reboot_disabled _ env3 (hrun.1 hh2) hok3
    exact createSpace_disabled_after_init freshManager _ env3 q hok3 hd3

theorem c5_disable_create_irreversible_witness :
    ((NvramManager.initFull { initialized_ := true } {} {}).1 = true) ∧
    ((NvramManager.DisableCreate { initialized_ := true } {} {}).1 = NvResult.success) ∧
    ((runOps [] ((NvramManager.DisableCreate { initialized_ := true } {} {}).2.1,
        (NvramManager.DisableCreate { initialized_ := true } {} {}).2.2)).1.disable_create_
      = true) ∧
    ((freshManager.CreateSpace
        (runOps [] ((NvramManager.DisableCreate { initialized_ := true } {} {}).2.1,
          (NvramManager.DisableCreate { initialized_ := true } {} {}).2.2)).2 {}
        { index := 1, size := 16 }).1 = NvResult.operationDisabled) := by
  have h := c5_disable_create_irreversible { initialized_ := true } {} {} (by decide)
  exact ⟨by decide, by decide, h.1 [],
    h.2.2 (by decide) [] {} { index := 1, size := 16 } (by decide)⟩

end Nvram
